import Mathlib

set_option maxRecDepth 100000

/-!
Verification of the claim-check codec layer of the repository: the two
`ClaimCheckCodec` variants (a Redis-backed cache-store codec in
`temporal_supervisor/claim_check/claim_check_codec.py` and a DB2-backed
relational-store codec in `temporal/claim_check/claim_check_codec.py`),
their plugins, the owner-scoped cleanup, and the standalone codec server.

External collaborators (protobuf serialization, gzip, base64, uuid
generation, the backing stores themselves) are modelled as parameters:
the theorems take the serializer/compressor pair together with the
pointwise round-trip facts those libraries guarantee, and the store is a
function from key to fetch outcome.  Machine byte strings are `List Nat`.
-/

namespace ClaimCheck

/-- Byte strings (Python `bytes`) as lists of naturals. -/
abbrev Bytes := List Nat

/-- UTF-8 bytes of an ASCII string (`s.encode("utf-8")`). -/
def strBytes (s : String) : Bytes := s.data.map Char.toNat

/-- `temporalio.api.common.v1.Payload`: a metadata map from string keys to
byte values plus a binary body.  The protobuf map is modelled as an
association list. -/
structure Payload where
  metadata : List (String × Bytes)
  data : Bytes
deriving DecidableEq, Repr

/-- The metadata key `"temporal.io/claim-check-codec"` carrying the codec
version tag. -/
def codecKey : String := "temporal.io/claim-check-codec"

/-- The metadata key `"encoding"`. -/
def encodingKey : String := "encoding"

/-- The marker value `b"claim-checked"` written under `"encoding"`. -/
def claimCheckedMarker : Bytes := strBytes "claim-checked"

/-- Version tag `b"v1"`: stored uncompressed. -/
def vUncompressed : Bytes := strBytes "v1"

/-- Version tag `b"v1c"`: stored gzip-compressed (cache variant only). -/
def vCompressed : Bytes := strBytes "v1c"

/-- `p.metadata.get("temporal.io/claim-check-codec", b"")`: the codec
version tag of a payload, defaulting to the empty byte string. -/
def claimCheckVersion (p : Payload) : Bytes :=
  (List.lookup codecKey p.metadata).getD []

/-! ### Cache-store (Redis) codec, `temporal_supervisor/claim_check/claim_check_codec.py` -/

/-- Constructor arguments of the Redis-backed `ClaimCheckCodec` that the
encode/decode logic reads (`enable_compression`, `compression_threshold`). -/
structure CacheCodec where
  enable_compression : Bool
  compression_threshold : Nat
deriving DecidableEq, Repr

/-- A single `redis_client.set(key, value)` call.  `ttl` is the optional
`ex` expiry argument of redis `SET`; the codec's call site passes only key
and value, which the embedding records as `ttl := none`. -/
structure RedisSet where
  key : Bytes
  value : Bytes
  ttl : Option Nat
deriving DecidableEq, Repr

/-- Result of `ClaimCheckCodec.encode_payload` (cache variant): the store
write it performs and the reference-token payload it returns. -/
structure CacheEncodeResult where
  write : RedisSet
  token : Payload
deriving DecidableEq, Repr

/-- `ClaimCheckCodec.encode_payload` (cache variant).  `gzCompress` stands
for `gzip.compress`, `serialize` for `Payload.SerializeToString`, and
`freshId` for the UTF-8 bytes of `str(uuid.uuid4())`. -/
def cacheEncodePayload (c : CacheCodec) (gzCompress : Bytes → Bytes)
    (serialize : Payload → Bytes) (freshId : Bytes) (p : Payload) :
    CacheEncodeResult :=
  let value := serialize p
  let should_compress :=
    c.enable_compression && decide (c.compression_threshold ≤ value.length)
  let stored := if should_compress then gzCompress value else value
  let codec_version := if should_compress then vCompressed else vUncompressed
  { write := { key := freshId, value := stored, ttl := none }
  , token :=
      { metadata := [(encodingKey, claimCheckedMarker), (codecKey, codec_version)]
      , data := freshId } }

/-- `ClaimCheckCodec.encode` (cache variant): encode every payload of the
batch in order, drawing the fresh identifier for position `i` from `ids i`. -/
def cacheEncode (c : CacheCodec) (gzCompress : Bytes → Bytes)
    (serialize : Payload → Bytes) (ids : Nat → Bytes) (ps : List Payload) :
    List CacheEncodeResult :=
  ps.enum.map fun ip => cacheEncodePayload c gzCompress serialize (ids ip.1) ip.2

/-- `ClaimCheckCodec.decode` (cache variant).  `get` stands for
`redis_client.get` (`.error` = the client raised, `.ok none` = key absent,
i.e. Python `None`), `gzDecompress` for `gzip.decompress` (`none` = raised),
`deserialize` for `Payload.FromString` (`none` = raised).  Any raised
exception aborts the whole decode call, modelled as `Except.error`. -/
def cacheDecode (get : Bytes → Except Unit (Option Bytes))
    (gzDecompress : Bytes → Option Bytes)
    (deserialize : Bytes → Option Payload) :
    List Payload → Except String (List Payload)
  | [] => .ok []
  | p :: rest =>
    let codec_version := claimCheckVersion p
    if codec_version = vUncompressed ∨ codec_version = vCompressed then
      match get p.data with
      | .error _ => .error "redis get raised"
      | .ok none => .error "TypeError: value is None"
      | .ok (some value) =>
        match (if codec_version = vCompressed then gzDecompress value
               else some value) with
        | none => .error "gzip.decompress raised"
        | some bytes =>
          match deserialize bytes with
          | none => .error "Payload.FromString raised"
          | some q =>
            (q :: ·) <$> cacheDecode get gzDecompress deserialize rest
    else
      (p :: ·) <$> cacheDecode get gzDecompress deserialize rest

/-! ### Relational-store (DB2) codec, `temporal/claim_check/claim_check_codec.py` -/

/-- `DB2Config` from `common/db2_config.py`: the connection parameters the
codec and plugin are constructed with. -/
structure DB2Config where
  hostname : String
  port : String
  database : String
  username : String
  password : String
  protocol : String
deriving DecidableEq, Repr

/-- Constructor arguments of the DB2-backed `ClaimCheckCodec` that the
encode logic reads. -/
structure DB2Codec where
  ttl_hours : Nat
deriving DecidableEq, Repr

/-- A row of the `claim_check_payloads` table, as inserted by
`encode_payload`: token id, base64-encoded payload bytes (CLOB),
owning workflow id / run id, and the absolute expiry time.  Time is
counted in hours, so `expires_at = now + ttl_hours`. -/
structure DB2Row where
  id : Bytes
  payload_data : String
  workflow_id : String
  workflow_run_id : String
  expires_at : Nat
deriving DecidableEq, Repr

/-- Result of `ClaimCheckCodec.encode_payload` (relational variant): the
row it inserted (when the write committed), whether the transaction was
rolled back, and the returned token or the propagated exception. -/
structure DB2EncodeResult where
  row : Option DB2Row
  rolledBack : Bool
  result : Except Unit Payload
deriving Repr

/-- `ClaimCheckCodec.encode_payload` (relational variant).  `b64encode`
stands for `base64.b64encode(...).decode("utf-8")`, `wfCtx` for the
`(workflow_id, run_id)` pair when `workflow.in_workflow()` holds, `now`
for `datetime.utcnow()` in hours, and `writeRes` for the outcome of the
prepared INSERT plus commit.  On a failed write the transaction is rolled
back and the exception re-raised (`result := .error`); on success the
reference token with the `v1` tag is returned. -/
def db2EncodePayload (c : DB2Codec) (serialize : Payload → Bytes)
    (b64encode : Bytes → String) (freshId : Bytes)
    (wfCtx : Option (String × String)) (now : Nat)
    (writeRes : Except Unit Unit) (p : Payload) : DB2EncodeResult :=
  let payload_bytes := serialize p
  let workflow_id := match wfCtx with | some wr => wr.1 | none => "unknown"
  let workflow_run_id := match wfCtx with | some wr => wr.2 | none => ""
  let expires_at := now + c.ttl_hours
  let encoded_data := b64encode payload_bytes
  match writeRes with
  | .error e => { row := none, rolledBack := true, result := .error e }
  | .ok _ =>
    { row := some { id := freshId, payload_data := encoded_data
                  , workflow_id := workflow_id
                  , workflow_run_id := workflow_run_id
                  , expires_at := expires_at }
    , rolledBack := false
    , result := .ok
        { metadata := [(encodingKey, claimCheckedMarker), (codecKey, vUncompressed)]
        , data := freshId } }

/-- `ClaimCheckCodec.encode` (relational variant): encode each payload in
order; the first raised exception aborts the whole batch.  Position `i`
draws its fresh id from `ids i` and its write outcome from `writes i`. -/
def db2EncodeFrom (c : DB2Codec) (serialize : Payload → Bytes)
    (b64encode : Bytes → String) (ids : Nat → Bytes)
    (wfCtx : Option (String × String)) (now : Nat)
    (writes : Nat → Except Unit Unit) (i : Nat) :
    List Payload → Except Unit (List Payload)
  | [] => .ok []
  | p :: rest =>
    match (db2EncodePayload c serialize b64encode (ids i) wfCtx now (writes i) p).result with
    | .error e => .error e
    | .ok tok =>
      (tok :: ·) <$> db2EncodeFrom c serialize b64encode ids wfCtx now writes (i + 1) rest

/-- `ClaimCheckCodec.encode` (relational variant), starting at position 0. -/
def db2Encode (c : DB2Codec) (serialize : Payload → Bytes)
    (b64encode : Bytes → String) (ids : Nat → Bytes)
    (wfCtx : Option (String × String)) (now : Nat)
    (writes : Nat → Except Unit Unit) (ps : List Payload) :
    Except Unit (List Payload) :=
  db2EncodeFrom c serialize b64encode ids wfCtx now writes 0 ps

/-- `ClaimCheckCodec.decode` (relational variant).  `fetch` stands for the
SELECT of `payload_data` by id (`.error` = the connection or query raised,
`.ok none` = no row), `b64decode` for `base64.b64decode` (`none` = raised),
`deserialize` for `Payload.FromString` (`none` = raised).  Every failure
inside the per-element `try` block is caught: the original token payload is
appended and the loop continues. -/
def db2Decode (fetch : Bytes → Except Unit (Option String))
    (b64decode : String → Option Bytes)
    (deserialize : Bytes → Option Payload) :
    List Payload → List Payload
  | [] => []
  | p :: rest =>
    let out :=
      if claimCheckVersion p ≠ vUncompressed then p
      else
        match fetch p.data with
        | .error _ => p
        | .ok none => p
        | .ok (some payload_data) =>
          match b64decode payload_data with
          | none => p
          | some payload_bytes =>
            match deserialize payload_bytes with
            | none => p
            | some q => q
    out :: db2Decode fetch b64decode deserialize rest

/-- `ClaimCheckCodec.cleanup_workflow_payloads` (relational variant), as
the effect of its DELETE statements on the `claim_check_payloads` table:
with a run id, delete rows matching both ids; without, delete all rows of
the workflow id. -/
def cleanup_workflow_payloads (table : List DB2Row) (workflow_id : String)
    (workflow_run_id : Option String) : List DB2Row :=
  match workflow_run_id with
  | some rid =>
    table.filter fun r =>
      !(decide (r.workflow_id = workflow_id ∧ r.workflow_run_id = rid))
  | none =>
    table.filter fun r => !(decide (r.workflow_id = workflow_id))

/-! ### Plugins (`claim_check_plugin.py`, both variants) and the codec server -/

/-- A reference to a constructed `ClaimCheckCodec` instance, recording the
configuration it was built with. -/
inductive PayloadCodecRef
  | db2 (config : DB2Config) (ttl_hours : Nat)
  | cache (host : String) (port : Nat) (enable_compression : Bool)
      (compression_threshold : Nat)
deriving DecidableEq, Repr

/-- `temporalio.converter.DataConverter`, restricted to the fields the
plugins touch: the payload converter class and the optional payload codec. -/
structure DataConverter where
  payload_converter_class : String
  payload_codec : Option PayloadCodecRef
deriving DecidableEq, Repr

/-- `temporalio.client.ClientConfig`, restricted to its `data_converter`
entry. -/
structure ClientConfig where
  data_converter : DataConverter
deriving DecidableEq, Repr

/-- The DB2-backed `ClaimCheckPlugin`: configuration read from the
environment at construction (`USE_CLAIM_CHECK`, DB2 connection parameters,
`CLAIM_CHECK_TTL_HOURS`). -/
structure DB2ClaimCheckPlugin where
  useClaimCheck : Bool
  db2_config : DB2Config
  ttl_hours : Nat
deriving DecidableEq, Repr

/-- `ClaimCheckPlugin.get_data_converter` (DB2 variant): when enabled,
build a codec from the stored configuration and return a converter
carrying it; otherwise return a converter with the default converter
class and no codec. -/
def DB2ClaimCheckPlugin.get_data_converter (pl : DB2ClaimCheckPlugin)
    (config : ClientConfig) : DataConverter :=
  let default_converter_class := config.data_converter.payload_converter_class
  if pl.useClaimCheck then
    { payload_converter_class := default_converter_class
    , payload_codec := some (.db2 pl.db2_config pl.ttl_hours) }
  else
    { payload_converter_class := default_converter_class
    , payload_codec := none }

/-- `ClaimCheckPlugin.configure_client` (DB2 variant): replace the config's
data converter with `get_data_converter`, then hand the config to the next
plugin in the chain (modelled by `next`). -/
def DB2ClaimCheckPlugin.configure_client (pl : DB2ClaimCheckPlugin)
    (next : ClientConfig → ClientConfig) (config : ClientConfig) :
    ClientConfig :=
  next { config with data_converter := pl.get_data_converter config }

/-- The Redis-backed `ClaimCheckPlugin` of `temporal_supervisor`:
configuration read from the environment at construction. -/
structure CacheClaimCheckPlugin where
  useClaimCheck : Bool
  redisHost : String
  redisPort : Nat
  enableCompression : Bool
  compressionThreshold : Nat
deriving DecidableEq, Repr

/-- `ClaimCheckPlugin.get_data_converter` (cache variant). -/
def CacheClaimCheckPlugin.get_data_converter (pl : CacheClaimCheckPlugin)
    (config : ClientConfig) : DataConverter :=
  let default_converter_class := config.data_converter.payload_converter_class
  if pl.useClaimCheck then
    { payload_converter_class := default_converter_class
    , payload_codec :=
        some (.cache pl.redisHost pl.redisPort pl.enableCompression
          pl.compressionThreshold) }
  else
    { payload_converter_class := default_converter_class
    , payload_codec := none }

/-- `ClaimCheckPlugin.configure_client` (cache variant).  The source body
is `return super().configure_client(config)`: the base `Plugin`
implementation forwards the config to the next plugin in the chain
unchanged, and `get_data_converter` is never invoked. -/
def CacheClaimCheckPlugin.configure_client (_pl : CacheClaimCheckPlugin)
    (next : ClientConfig → ClientConfig) (config : ClientConfig) :
    ClientConfig :=
  next config

/-- The keyword parameters accepted by the DB2-backed
`ClaimCheckCodec.__init__` (besides `self`): `config` and `ttl_hours`. -/
def db2CodecInitParams : List String := ["config", "ttl_hours"]

/-- The keyword arguments `build_codec_server` passes to
`ClaimCheckCodec(...)`. -/
def codecServerInitKwargs : List String :=
  ["config", "ttl_hours", "enable_compression", "compression_threshold"]

/-- Python keyword binding of a `ClaimCheckCodec(...)` call: it raises
`TypeError` unless every keyword argument names an accepted parameter. -/
def db2CodecInitCall (kwargs : List String) : Except String Unit :=
  if kwargs.all (fun k => db2CodecInitParams.contains k) then .ok ()
  else .error "TypeError: ClaimCheckCodec.__init__ got an unexpected keyword argument"

/-- The aiohttp application built by `build_codec_server`: its route table
of (method, path) pairs. -/
structure WebApplication where
  routes : List (String × String)
deriving DecidableEq, Repr

/-- `build_codec_server` (`codec_server/codec_server.py`): read the DB2
config and the TTL / compression settings from the environment, construct
the DB2-backed `ClaimCheckCodec` with them — passing `enable_compression`
and `compression_threshold` keywords — and register the three routes. -/
def build_codec_server (_db2_config : DB2Config) (_ttl_hours : Nat)
    (_enable_compression : Bool) (_compression_threshold : Nat) :
    Except String WebApplication :=
  match db2CodecInitCall codecServerInitKwargs with
  | .error e => .error e
  | .ok _ =>
    .ok { routes := [("POST", "/encode"), ("POST", "/decode"), ("OPTIONS", "/decode")] }

/-! ### Concrete executable instantiations for witnesses

The theorems below are parametric in the external serializer, compressor
and base64 coder, assuming only the pointwise round-trip facts those
libraries guarantee.  To discharge the hypotheses on concrete inputs we
fix simple executable instantiations: a length-prefixed payload coder, a
tagging compressor, and a digit-string base64 stand-in. -/

/-- Length-prefix a byte list. -/
def lenPrefixed (l : Bytes) : Bytes := l.length :: l

/-- Drop a length-prefixed chunk off the front of a byte list. -/
def takeChunk : Bytes → Option (Bytes × Bytes)
  | [] => none
  | n :: rest =>
    if n ≤ rest.length then some (rest.take n, rest.drop n) else none

/-- Decode ASCII byte values back to a string. -/
def strOfBytes (l : Bytes) : String := String.mk (l.map Char.ofNat)

/-- Witness serializer: metadata entry count, then each entry as a
length-prefixed key and value, then the length-prefixed body. -/
def serW (p : Payload) : Bytes :=
  p.metadata.length ::
    p.metadata.foldr
      (fun e acc => lenPrefixed (strBytes e.1) ++ lenPrefixed e.2 ++ acc)
      (lenPrefixed p.data)

/-- Parse `n` metadata entries off the front of a byte list. -/
def parseEntries : Nat → Bytes → Option (List (String × Bytes) × Bytes)
  | 0, rest => some ([], rest)
  | n + 1, rest => do
    let kr ← takeChunk rest
    let vr ← takeChunk kr.2
    let er ← parseEntries n vr.2
    pure ((strOfBytes kr.1, vr.1) :: er.1, er.2)

/-- Witness deserializer, inverse of `serW` on its range. -/
def deserW (b : Bytes) : Option Payload :=
  match b with
  | [] => none
  | n :: rest => do
    let er ← parseEntries n rest
    let dr ← takeChunk er.2
    if dr.2 = [] then pure { metadata := er.1, data := dr.1 } else none

/-- Witness compressor: tag the bytes with a leading 0. -/
def gzW (l : Bytes) : Bytes := 0 :: l

/-- Witness decompressor, inverse of `gzW` on its range. -/
def gunzipW : Bytes → Option Bytes
  | 0 :: l => some l
  | _ => none

/-- Witness base64 encoder: render each byte as one character. -/
def b64eW (l : Bytes) : String := String.mk (l.map Char.ofNat)

/-- Witness base64 decoder, inverse of `b64eW` on byte values. -/
def b64dW (s : String) : Option Bytes := some (strBytes s)

/-- A small concrete payload used by witnesses. -/
def pW : Payload :=
  { metadata := [("encoding", strBytes "json/plain")]
  , data := strBytes "hello" }

/-- A large concrete payload (serialized length well above the default
threshold of 250) used by witnesses for the compressed branch. -/
def pLargeW : Payload :=
  { metadata := [("encoding", strBytes "json/plain")]
  , data := List.replicate 300 65 }

/-- Decidable equality for fetch and decode outcomes. -/
instance {ε α : Type} [DecidableEq ε] [DecidableEq α] : DecidableEq (Except ε α) := fun x y =>
  match x, y with
  | .ok a, .ok b =>
    if h : a = b then isTrue (by rw [h]) else isFalse (by simp [h])
  | .error a, .error b =>
    if h : a = b then isTrue (by rw [h]) else isFalse (by simp [h])
  | .ok _, .error _ => isFalse (by simp)
  | .error _, .ok _ => isFalse (by simp)

/-- Concrete token identifier used by witnesses. -/
def idW : Bytes := strBytes "3f2b-token"

/-- Fresh-id supply that always yields `idW`. -/
def idsW : Nat → Bytes := fun _ => idW

/-- Cache codec with compression enabled at the default threshold 250. -/
def ccOn : CacheCodec := { enable_compression := true, compression_threshold := 250 }

/-- Cache codec with compression disabled. -/
def ccOff : CacheCodec := { enable_compression := false, compression_threshold := 250 }

/-- Redis store holding exactly the blob the encode of `pW` under `ccOn`
writes. -/
def getSmallW : Bytes → Except Unit (Option Bytes) := fun k =>
  if k = idW then .ok (some ((cacheEncodePayload ccOn gzW serW idW pW).write.value))
  else .ok none

/-- Redis store holding exactly the blob the encode of `pLargeW` under
`ccOn` writes. -/
def getLargeW : Bytes → Except Unit (Option Bytes) := fun k =>
  if k = idW then .ok (some ((cacheEncodePayload ccOn gzW serW idW pLargeW).write.value))
  else .ok none

/-- DB2 codec with the default TTL of 24 hours. -/
def dcW : DB2Codec := { ttl_hours := 24 }

/-- Relational store holding exactly the row the encode of `pW` writes. -/
def fetchPW : Bytes → Except Unit (Option String) := fun k =>
  if k = idW then .ok (some (b64eW (serW pW))) else .ok none

/-- Relational store holding exactly the row the encode of `pLargeW`
writes. -/
def fetchLargeW : Bytes → Except Unit (Option String) := fun k =>
  if k = idW then .ok (some (b64eW (serW pLargeW))) else .ok none

/-- The reference token the relational encode of `pW` under `idW` emits. -/
def db2TokW : Payload :=
  { metadata := [(encodingKey, claimCheckedMarker), (codecKey, vUncompressed)]
  , data := idW }

/-- Write outcomes: every insert commits. -/
def writesOkW : Nat → Except Unit Unit := fun _ => .ok ()

/-- Write outcomes: the insert at position 0 commits, the one at
position 1 fails. -/
def writesFail1W : Nat → Except Unit Unit := fun j =>
  if j = 0 then .ok () else .error ()

/-- A claim-check token whose blob is absent from the store. -/
def tokMissingW : Payload :=
  { metadata := [(encodingKey, claimCheckedMarker), (codecKey, vUncompressed)]
  , data := strBytes "gone" }

/-- Relational store with no rows at all. -/
def fetchNoneW : Bytes → Except Unit (Option String) := fun _ => .ok none

/-- Redis store whose every get raises. -/
def getErrW : Bytes → Except Unit (Option Bytes) := fun _ => .error ()

/-- A payload carrying the `v1` codec-version tag but no `encoding`
metadata entry at all. -/
def p4 : Payload := { metadata := [(codecKey, vUncompressed)], data := strBytes "k" }

/-- The distinct payload stored under `p4`'s token. -/
def q4 : Payload :=
  { metadata := [("encoding", strBytes "binary/plain")], data := [9, 9] }

/-- Redis store resolving `p4`'s token to the serialized `q4`. -/
def get4 : Bytes → Except Unit (Option Bytes) := fun k =>
  if k = strBytes "k" then .ok (some (serW q4)) else .ok none

/-- A payload carrying the `encoding = claim-checked` marker but an
unrecognized codec-version tag. -/
def pBogusW : Payload :=
  { metadata := [(encodingKey, claimCheckedMarker), (codecKey, strBytes "v2")]
  , data := strBytes "x" }

/-- Concrete DB2 connection configuration (the documented defaults). -/
def dcfgW : DB2Config :=
  { hostname := "localhost", port := "50000", database := "testdb"
  , username := "db2inst1", password := "password", protocol := "TCPIP" }

/-- A client config carrying the default converter and no codec. -/
def clientCfgW : ClientConfig :=
  { data_converter := { payload_converter_class := "DefaultPayloadConverter"
                      , payload_codec := none } }

/-- The cache-backed plugin with `USE_CLAIM_CHECK` enabled and the
documented defaults for the remaining settings. -/
def cachePluginOnW : CacheClaimCheckPlugin :=
  { useClaimCheck := true, redisHost := "localhost", redisPort := 6379
  , enableCompression := true, compressionThreshold := 250 }

/-- Sample rows of the `claim_check_payloads` table. -/
def rowA : DB2Row :=
  { id := strBytes "t1", payload_data := "d1", workflow_id := "wf-1"
  , workflow_run_id := "run-1", expires_at := 24 }

/-- Second sample row: same workflow as `rowA`, different run. -/
def rowB : DB2Row :=
  { id := strBytes "t2", payload_data := "d2", workflow_id := "wf-1"
  , workflow_run_id := "run-2", expires_at := 24 }

/-- Third sample row: a different workflow. -/
def rowC : DB2Row :=
  { id := strBytes "t3", payload_data := "d3", workflow_id := "wf-2"
  , workflow_run_id := "run-1", expires_at := 24 }

/-! ## Theorems -/

theorem claimCheckVersion_token (m v : Bytes) (d : Bytes) :
    claimCheckVersion { metadata := [(encodingKey, m), (codecKey, v)], data := d } = v := by
  have h1 : (codecKey == encodingKey) = false := by decide
  simp [claimCheckVersion, List.lookup, h1]

theorem db2Decode_append (f : Bytes → Except Unit (Option String))
    (b : String → Option Bytes) (d : Bytes → Option Payload)
    (xs ys : List Payload) :
    db2Decode f b d (xs ++ ys) = db2Decode f b d xs ++ db2Decode f b d ys := by
  induction xs with
  | nil => rfl
  | cons p xs ih => simp [db2Decode, ih]

/-- C1: decoding the encode of the singleton batch `[P]` yields `[P]` with
metadata and body identical to the original, for the cache-store codec in
whichever compression branch its configuration selects, and for the
relational-store codec, assuming the backing store returns the bytes that
encode wrote and the external serializer, compressor and base64 coder
round-trip on the bytes involved. -/
theorem c1_round_trip
    (cc : CacheCodec) (dc : DB2Codec)
    (gz : Bytes → Bytes) (gunzip : Bytes → Option Bytes)
    (ser : Payload → Bytes) (deser : Bytes → Option Payload)
    (b64e : Bytes → String) (b64d : String → Option Bytes)
    (idsC idsD : Nat → Bytes) (ctx : Option (String × String)) (now : Nat)
    (writes : Nat → Except Unit Unit)
    (get : Bytes → Except Unit (Option Bytes))
    (fetch : Bytes → Except Unit (Option String))
    (P : Payload)
    (hdeser : deser (ser P) = some P)
    (hgz : gunzip (gz (ser P)) = some (ser P))
    (hb64 : b64d (b64e (ser P)) = some (ser P))
    (hget : ∀ r ∈ cacheEncode cc gz ser idsC [P],
        get r.write.key = .ok (some r.write.value))
    (hwrite : writes 0 = .ok ())
    (hfetch : ∀ row,
        (db2EncodePayload dc ser b64e (idsD 0) ctx now (writes 0) P).row = some row →
        fetch row.id = .ok (some row.payload_data)) :
    cacheDecode get gunzip deser ((cacheEncode cc gz ser idsC [P]).map (·.token))
      = .ok [P]
  ∧ ∀ toks, db2Encode dc ser b64e idsD ctx now writes [P] = .ok toks →
      db2Decode fetch b64d deser toks = [P] := by
  constructor
  · have hE : cacheEncode cc gz ser idsC [P]
        = [cacheEncodePayload cc gz ser (idsC 0) P] := rfl
    rw [hE]
    have hg := hget (cacheEncodePayload cc gz ser (idsC 0) P)
      (by rw [hE]; exact List.mem_singleton.mpr rfl)
    cases hsc : cc.enable_compression
        && decide (cc.compression_threshold ≤ (ser P).length) with
    | true =>
      have he : cacheEncodePayload cc gz ser (idsC 0) P =
          { write := { key := idsC 0, value := gz (ser P), ttl := none }
          , token := { metadata := [(encodingKey, claimCheckedMarker), (codecKey, vCompressed)], data := idsC 0 } } := by
        simp [cacheEncodePayload, hsc]
      rw [he] at hg ⊢
      have hv1 : ¬(vCompressed = vUncompressed) := by decide
      simp [cacheDecode, claimCheckVersion_token, hg, hgz, hdeser, hv1]
    | false =>
      have he : cacheEncodePayload cc gz ser (idsC 0) P =
          { write := { key := idsC 0, value := ser P, ttl := none }
          , token := { metadata := [(encodingKey, claimCheckedMarker), (codecKey, vUncompressed)], data := idsC 0 } } := by
        simp [cacheEncodePayload, hsc]
      rw [he] at hg ⊢
      have hv1 : ¬(vUncompressed = vCompressed) := by decide
      simp [cacheDecode, claimCheckVersion_token, hg, hdeser, hv1]
  · intro toks h
    rw [hwrite] at hfetch
    have hf : fetch (idsD 0) = .ok (some (b64e (ser P))) := hfetch _ rfl
    have henc : db2Encode dc ser b64e idsD ctx now writes [P]
        = .ok [{ metadata := [(encodingKey, claimCheckedMarker), (codecKey, vUncompressed)], data := idsD 0 }] := by
      simp [db2Encode, db2EncodeFrom, db2EncodePayload, hwrite]
    rw [henc] at h
    injection h with h2
    subst h2
    simp [db2Decode, claimCheckVersion_token, hf, hb64, hdeser]

/-- C1 witness: the round trip evaluated on the concrete small payload
(below threshold, `v1` branch), the concrete large payload (above
threshold, `v1c` branch), and the relational variant. -/
theorem c1_round_trip_witness :
    cacheDecode getSmallW gunzipW deserW
        ((cacheEncode ccOn gzW serW idsW [pW]).map (·.token)) = .ok [pW]
  ∧ cacheDecode getLargeW gunzipW deserW
        ((cacheEncode ccOn gzW serW idsW [pLargeW]).map (·.token)) = .ok [pLargeW]
  ∧ db2Decode fetchPW b64dW deserW [db2TokW] = [pW] :=
  ⟨(c1_round_trip ccOn dcW gzW gunzipW serW deserW b64eW b64dW idsW idsW none 0
      writesOkW getSmallW fetchPW pW (by decide) (by decide) (by decide)
      (by decide) rfl
      (by intro row hrow; injection hrow with h; subst h; decide)).1
  , (c1_round_trip ccOn dcW gzW gunzipW serW deserW b64eW b64dW idsW idsW none 0
      writesOkW getLargeW fetchLargeW pLargeW (by decide) (by decide) (by decide)
      (by decide) rfl
      (by intro row hrow; injection hrow with h; subst h; decide)).1
  , (c1_round_trip ccOn dcW gzW gunzipW serW deserW b64eW b64dW idsW idsW none 0
      writesOkW getSmallW fetchPW pW (by decide) (by decide) (by decide)
      (by decide) rfl
      (by intro row hrow; injection hrow with h; subst h; decide)).2
      [db2TokW] rfl⟩

theorem cacheDecode_error_of_error_tail (get : Bytes → Except Unit (Option Bytes))
    (gz : Bytes → Option Bytes) (de : Bytes → Option Payload)
    (xs : List Payload)
    (hxs : ∀ q ∈ xs,
      ¬(claimCheckVersion q = vUncompressed ∨ claimCheckVersion q = vCompressed))
    (rest : List Payload) (e : String)
    (hrest : cacheDecode get gz de rest = .error e) :
    cacheDecode get gz de (xs ++ rest) = .error e := by
  induction xs with
  | nil => simpa using hrest
  | cons q xs ih =>
    have hq := hxs q (List.mem_cons_self q xs)
    have ih' := ih fun r hr => hxs r (List.mem_cons_of_mem q hr)
    simp [cacheDecode, hq, ih']

/-- C2: when the stored blob of a claim-checked payload is missing or the
store access errors, the relational-store decode returns that original
token payload unchanged at its position while still decoding the rest of
the batch and raising no exception, whereas the cache-store decode raises
an error out of the whole decode call. -/
theorem c2_decode_failure_policy
    (fetch : Bytes → Except Unit (Option String)) (b64d : String → Option Bytes)
    (deser : Bytes → Option Payload)
    (get : Bytes → Except Unit (Option Bytes)) (gunzip : Bytes → Option Bytes)
    (deserC : Bytes → Option Payload)
    (p pc : Payload) (xs ys zs ws : List Payload)
    (hver : claimCheckVersion p = vUncompressed)
    (hfail : fetch p.data = .error () ∨ fetch p.data = .ok none)
    (hverC : claimCheckVersion pc = vUncompressed ∨ claimCheckVersion pc = vCompressed)
    (hfailC : get pc.data = .error () ∨ get pc.data = .ok none)
    (hws : ∀ q ∈ ws,
      ¬(claimCheckVersion q = vUncompressed ∨ claimCheckVersion q = vCompressed)) :
    db2Decode fetch b64d deser (xs ++ p :: ys)
      = db2Decode fetch b64d deser xs ++ p :: db2Decode fetch b64d deser ys
  ∧ ∃ e, cacheDecode get gunzip deserC (ws ++ pc :: zs) = .error e := by
  constructor
  · rw [db2Decode_append]
    have hmid : db2Decode fetch b64d deser (p :: ys)
        = p :: db2Decode fetch b64d deser ys := by
      rcases hfail with hf | hf <;> simp [db2Decode, hver, hf]
    rw [hmid]
  · have hhead : ∃ e, cacheDecode get gunzip deserC (pc :: zs) = .error e := by
      rcases hfailC with hf | hf
      · exact ⟨"redis get raised", by simp [cacheDecode, hverC, hf]⟩
      · exact ⟨"TypeError: value is None", by simp [cacheDecode, hverC, hf]⟩
    obtain ⟨e, he⟩ := hhead
    exact ⟨e, cacheDecode_error_of_error_tail get gunzip deserC ws hws _ e he⟩

/-- C2 witness: a missing blob behind `tokMissingW`, surrounded by
ordinary payloads, evaluated under both variants. -/
theorem c2_decode_failure_policy_witness :
    db2Decode fetchNoneW b64dW deserW ([pW] ++ tokMissingW :: [pW])
      = db2Decode fetchNoneW b64dW deserW [pW]
          ++ tokMissingW :: db2Decode fetchNoneW b64dW deserW [pW]
  ∧ ∃ e, cacheDecode getErrW gunzipW deserW ([pW] ++ tokMissingW :: [pW]) = .error e :=
  c2_decode_failure_policy fetchNoneW b64dW deserW getErrW gunzipW deserW
    tokMissingW tokMissingW [pW] [pW] [pW] [pW]
    (by decide) (Or.inr rfl) (Or.inl (by decide)) (Or.inl rfl) (by decide)

/-- C3: the cache-store encode compresses and tags `v1c` exactly when
compression is enabled and the serialized length reaches the threshold;
below the threshold, or with compression disabled, it stores the raw
serialized bytes and tags `v1`. -/
theorem c3_compression_decision (c : CacheCodec) (gz : Bytes → Bytes)
    (ser : Payload → Bytes) (freshId : Bytes) (p : Payload) :
    (c.enable_compression = true → c.compression_threshold ≤ (ser p).length →
      (cacheEncodePayload c gz ser freshId p).write.value = gz (ser p) ∧
      claimCheckVersion (cacheEncodePayload c gz ser freshId p).token = vCompressed)
  ∧ ((ser p).length < c.compression_threshold →
      (cacheEncodePayload c gz ser freshId p).write.value = ser p ∧
      claimCheckVersion (cacheEncodePayload c gz ser freshId p).token = vUncompressed)
  ∧ (c.enable_compression = false →
      (cacheEncodePayload c gz ser freshId p).write.value = ser p ∧
      claimCheckVersion (cacheEncodePayload c gz ser freshId p).token = vUncompressed) := by
  refine ⟨?_, ?_, ?_⟩
  · intro h hle
    simp [cacheEncodePayload, h, hle, claimCheckVersion_token]
  · intro hlt
    have hd : decide (c.compression_threshold ≤ (ser p).length) = false :=
      decide_eq_false (by omega)
    simp [cacheEncodePayload, hd, claimCheckVersion_token]
  · intro h
    simp [cacheEncodePayload, h, claimCheckVersion_token]

/-- C3 witness: the three branches evaluated on the concrete payloads —
large with compression on, small with compression on, large with
compression off. -/
theorem c3_compression_decision_witness :
    ((cacheEncodePayload ccOn gzW serW idW pLargeW).write.value = gzW (serW pLargeW) ∧
      claimCheckVersion (cacheEncodePayload ccOn gzW serW idW pLargeW).token = vCompressed)
  ∧ ((cacheEncodePayload ccOn gzW serW idW pW).write.value = serW pW ∧
      claimCheckVersion (cacheEncodePayload ccOn gzW serW idW pW).token = vUncompressed)
  ∧ ((cacheEncodePayload ccOff gzW serW idW pLargeW).write.value = serW pLargeW ∧
      claimCheckVersion (cacheEncodePayload ccOff gzW serW idW pLargeW).token = vUncompressed) :=
  ⟨(c3_compression_decision ccOn gzW serW idW pLargeW).1 rfl (by decide)
  , (c3_compression_decision ccOn gzW serW idW pW).2.1 (by decide)
  , (c3_compression_decision ccOff gzW serW idW pLargeW).2.2 rfl⟩

/-- C4 counterexample: a payload lacking the `encoding = claim-checked`
marker entirely but carrying the `v1` version tag is not returned
unchanged — the cache-store decode resolves it from the store to a
different payload — so "every payload lacking the claim-check marker is
returned unchanged" fails as stated. -/
theorem c4_counterexample :
    List.lookup encodingKey p4.metadata = none
  ∧ cacheDecode get4 gunzipW deserW [p4] = .ok [q4]
  ∧ q4 ≠ p4 := by
  refine ⟨rfl, by decide, by decide⟩

/-- C4 (amended): every payload whose codec-version metadata key is absent
or outside the variant's accepted set is returned unchanged, byte-identical
and at the same position in the output batch, for both codec variants —
decode is safe on a mixed batch. -/
theorem c4_pass_through
    (fetch : Bytes → Except Unit (Option String)) (b64d : String → Option Bytes)
    (deser : Bytes → Option Payload)
    (get : Bytes → Except Unit (Option Bytes)) (gunzip : Bytes → Option Bytes)
    (deserC : Bytes → Option Payload)
    (p : Payload) (xs ys zs : List Payload)
    (hv : ¬(claimCheckVersion p = vUncompressed ∨ claimCheckVersion p = vCompressed)) :
    db2Decode fetch b64d deser (xs ++ p :: ys)
      = db2Decode fetch b64d deser xs ++ p :: db2Decode fetch b64d deser ys
  ∧ cacheDecode get gunzip deserC (p :: zs)
      = (fun l => p :: l) <$> cacheDecode get gunzip deserC zs := by
  constructor
  · rw [db2Decode_append]
    have h1 : ¬(claimCheckVersion p = vUncompressed) := fun hh => hv (Or.inl hh)
    simp [db2Decode, h1]
  · simp [cacheDecode, hv]

/-- C4 witness: an unrecognized-version payload in the middle of a batch,
under both variants. -/
theorem c4_pass_through_witness :
    db2Decode fetchNoneW b64dW deserW ([pW] ++ pBogusW :: [pW])
      = db2Decode fetchNoneW b64dW deserW [pW]
          ++ pBogusW :: db2Decode fetchNoneW b64dW deserW [pW]
  ∧ cacheDecode getErrW gunzipW deserW (pBogusW :: [pW])
      = (fun l => pBogusW :: l) <$> cacheDecode getErrW gunzipW deserW [pW] :=
  c4_pass_through fetchNoneW b64dW deserW getErrW gunzipW deserW pBogusW
    [pW] [pW] [pW] (by decide)

theorem db2EncodeFrom_error_of_write_error (c : DB2Codec) (ser : Payload → Bytes)
    (b64e : Bytes → String) (ids : Nat → Bytes) (ctx : Option (String × String))
    (now : Nat) (writes : Nat → Except Unit Unit) (e : Unit) (p : Payload)
    (ys : List Payload) :
    ∀ (xs : List Payload) (i : Nat),
      (∀ j, j < xs.length → writes (i + j) = .ok ()) →
      writes (i + xs.length) = .error e →
      db2EncodeFrom c ser b64e ids ctx now writes i (xs ++ p :: ys) = .error e := by
  intro xs
  induction xs with
  | nil =>
    intro i _ hfail
    rw [List.length_nil, Nat.add_zero] at hfail
    show db2EncodeFrom c ser b64e ids ctx now writes i (p :: ys) = .error e
    simp [db2EncodeFrom, db2EncodePayload, hfail]
  | cons x xs ih =>
    intro i hok hfail
    have h0 : writes i = .ok () := by
      have h := hok 0 (Nat.succ_pos _)
      rwa [Nat.add_zero] at h
    have hok' : ∀ j, j < xs.length → writes (i + 1 + j) = .ok () := by
      intro j hj
      have h := hok (j + 1) (by simp only [List.length_cons]; omega)
      rwa [show i + (j + 1) = i + 1 + j by omega] at h
    have hfail' : writes (i + 1 + xs.length) = .error e := by
      rw [show i + 1 + xs.length = i + (x :: xs).length by simp; omega]
      exact hfail
    have hrec := ih (i + 1) hok' hfail'
    show db2EncodeFrom c ser b64e ids ctx now writes i (x :: (xs ++ p :: ys)) = .error e
    simp [db2EncodeFrom, db2EncodePayload, h0, hrec, Except.map]

/-- C5: if the backing-store write fails during a relational encode, the
transaction is rolled back, no row is stored, the per-payload call raises
the error instead of returning a token, and the batch encode containing
that payload errors as a whole — the original payload is never silently
passed through. -/
theorem c5_encode_write_failure (c : DB2Codec) (ser : Payload → Bytes)
    (b64e : Bytes → String) (ids : Nat → Bytes) (ctx : Option (String × String))
    (now : Nat) (writes : Nat → Except Unit Unit) (e : Unit)
    (xs ys : List Payload) (p : Payload)
    (hok : ∀ j, j < xs.length → writes j = .ok ())
    (hfail : writes xs.length = .error e) :
    (db2EncodePayload c ser b64e (ids xs.length) ctx now (writes xs.length) p).result
        = .error e
  ∧ (db2EncodePayload c ser b64e (ids xs.length) ctx now (writes xs.length) p).rolledBack
        = true
  ∧ (db2EncodePayload c ser b64e (ids xs.length) ctx now (writes xs.length) p).row
        = none
  ∧ db2Encode c ser b64e ids ctx now writes (xs ++ p :: ys) = .error e := by
  refine ⟨by rw [hfail]; rfl, by rw [hfail]; rfl, by rw [hfail]; rfl, ?_⟩
  refine db2EncodeFrom_error_of_write_error c ser b64e ids ctx now writes e p ys xs 0 ?_ ?_
  · intro j hj
    rw [Nat.zero_add]
    exact hok j hj
  · rw [Nat.zero_add]
    exact hfail

/-- C5 witness: a two-element batch whose second insert fails, evaluated
on concrete inputs. -/
theorem c5_encode_write_failure_witness :
    (db2EncodePayload dcW serW b64eW (idsW 1) none 0 (writesFail1W 1) pW).result
        = .error ()
  ∧ (db2EncodePayload dcW serW b64eW (idsW 1) none 0 (writesFail1W 1) pW).rolledBack
        = true
  ∧ (db2EncodePayload dcW serW b64eW (idsW 1) none 0 (writesFail1W 1) pW).row
        = none
  ∧ db2Encode dcW serW b64eW idsW none 0 writesFail1W ([pW] ++ pW :: []) = .error () :=
  c5_encode_write_failure dcW serW b64eW idsW none 0 writesFail1W ()
    [pW] [] pW (by decide) rfl

/-- C6 counterexample: a concrete cache-store encode performs its write
with `ttl = none` — `redis_client.set` is called with key and value only —
so the claim that every such write attaches a store-native time-to-live is
false. -/
theorem c6_counterexample :
    (cacheEncodePayload ccOn gzW serW idW pW).write.ttl = none := rfl

/-- C6 (amended): every write the cache-store codec performs during encode
stores the blob with a plain set carrying no TTL; the codec never arranges
expiry for its cache entries. -/
theorem c6_no_ttl (c : CacheCodec) (gz : Bytes → Bytes)
    (ser : Payload → Bytes) (freshId : Bytes) (p : Payload) :
    (cacheEncodePayload c gz ser freshId p).write.ttl = none := rfl

/-- C7: with `USE_CLAIM_CHECK` enabled the cache-backed plugin's
`configure_client` hands the client config on unchanged — the codec its
`get_data_converter` would construct is never installed — while the
relational-backed plugin installs its codec exactly when enabled. -/
theorem c7_cache_plugin_never_installs :
    CacheClaimCheckPlugin.configure_client cachePluginOnW id clientCfgW = clientCfgW
  ∧ clientCfgW.data_converter.payload_codec = none
  ∧ (CacheClaimCheckPlugin.get_data_converter cachePluginOnW clientCfgW).payload_codec
      = some (.cache "localhost" 6379 true 250)
  ∧ (DB2ClaimCheckPlugin.configure_client
        { useClaimCheck := true, db2_config := dcfgW, ttl_hours := 24 }
        id clientCfgW).data_converter.payload_codec
      = some (.db2 dcfgW 24)
  ∧ (DB2ClaimCheckPlugin.configure_client
        { useClaimCheck := false, db2_config := dcfgW, ttl_hours := 24 }
        id clientCfgW).data_converter
      = clientCfgW.data_converter :=
  ⟨rfl, rfl, rfl, rfl, rfl⟩

/-- C8: building the standalone codec service fails for every
configuration: `build_codec_server` passes `enable_compression` and
`compression_threshold` keyword arguments that the relational
`ClaimCheckCodec.__init__` does not accept, so codec construction raises
`TypeError` before any route is registered. -/
theorem c8_codec_server_build_fails (cfg : DB2Config) (ttl : Nat)
    (en : Bool) (thr : Nat) :
    build_codec_server cfg ttl en thr
      = .error "TypeError: ClaimCheckCodec.__init__ got an unexpected keyword argument" :=
  rfl

/-- C9: owner-scoped cleanup deletes exactly the rows whose owner context
matches — both ids when a run id is supplied, the workflow id alone when
it is omitted — and rows of any other owner remain. -/
theorem c9_cleanup_owner_scoped (t : List DB2Row) (wid rid : String) (r : DB2Row) :
    (r ∈ cleanup_workflow_payloads t wid (some rid) ↔
      r ∈ t ∧ ¬(r.workflow_id = wid ∧ r.workflow_run_id = rid))
  ∧ (r ∈ cleanup_workflow_payloads t wid none ↔ r ∈ t ∧ ¬(r.workflow_id = wid))
  ∧ (∀ o : Option String, r.workflow_id ≠ wid →
      (r ∈ cleanup_workflow_payloads t wid o ↔ r ∈ t)) := by
  refine ⟨?_, ?_, ?_⟩
  · simp only [cleanup_workflow_payloads, List.mem_filter, Bool.not_eq_eq_eq_not,
      Bool.not_true, decide_eq_false_iff_not]
  · simp [cleanup_workflow_payloads, List.mem_filter]
  · intro o h
    cases o with
    | none => simp [cleanup_workflow_payloads, List.mem_filter, h]
    | some rid2 => simp [cleanup_workflow_payloads, List.mem_filter, h]

/-- C9 witness: a row of another workflow survives the cleanup of
`wf-1`/`run-1` in a concrete three-row table. -/
theorem c9_cleanup_owner_scoped_witness :
    rowC ∈ cleanup_workflow_payloads [rowA, rowB, rowC] "wf-1" (some "run-1") ↔
      rowC ∈ [rowA, rowB, rowC] :=
  (c9_cleanup_owner_scoped [rowA, rowB, rowC] "wf-1" "run-1" rowC).2.2
    (some "run-1") (by decide)

/-- C10: decode classifies a payload as claim-checked from the
codec-version metadata key alone: a payload carrying the
`encoding = claim-checked` marker but no recognized version tag is passed
through unchanged by both variants, without any store lookup. -/
theorem c10_version_tag_only
    (get : Bytes → Except Unit (Option Bytes)) (gunzip : Bytes → Option Bytes)
    (deserC : Bytes → Option Payload)
    (fetch : Bytes → Except Unit (Option String)) (b64d : String → Option Bytes)
    (deser : Bytes → Option Payload) (p : Payload)
    (_hmark : List.lookup encodingKey p.metadata = some claimCheckedMarker)
    (hv : ¬(claimCheckVersion p = vUncompressed ∨ claimCheckVersion p = vCompressed)) :
    cacheDecode get gunzip deserC [p] = .ok [p]
  ∧ db2Decode fetch b64d deser [p] = [p] := by
  constructor
  · simp [cacheDecode, hv]
  · have h1 : ¬(claimCheckVersion p = vUncompressed) := fun hh => hv (Or.inl hh)
    simp [db2Decode, h1]

/-- C10 witness: a marked payload with version tag `v2` passes through
both variants even over a store whose every access errors. -/
theorem c10_version_tag_only_witness :
    cacheDecode getErrW gunzipW deserW [pBogusW] = .ok [pBogusW]
  ∧ db2Decode fetchNoneW b64dW deserW [pBogusW] = [pBogusW] :=
  c10_version_tag_only getErrW gunzipW deserW fetchNoneW b64dW deserW pBogusW
    (by decide) (by decide)

end ClaimCheck
